import Mathlib

/-
Shallow embedding of the Flow Journal backend
(src/homelab-infra/ansible-vm110/files/flowjournal/backend/app.py).

The backend is a FastAPI application over a PostgreSQL store accessed
through an asyncpg connection pool.  Each table is modelled as a list of
rows inside a `DB` record; each HTTP handler becomes a pure function from
the current `DB` (plus its request arguments) to a result and, for writers,
an updated `DB`.  SQL dates and timestamps are modelled as `Nat` (day and
clock ordinals); `NOW()` becomes an explicit `now : Nat` argument; the id
produced by `RETURNING id` on the SERIAL users column becomes an explicit
`new_id : Nat` argument.  The password digest (hashlib.sha256 hexdigest in
the source) is an external primitive and is passed in as an abstract
`hash_password : String → String` parameter.

A pool connection obtained with `async with db_pool.acquire() as conn:` is
NOT a transaction: asyncpg auto-commits every statement executed on it.
Handlers that run a single statement are therefore atomic, while the one
handler that runs two statements without `conn.transaction()` (register)
commits them one by one; this is modelled explicitly there.
-/

/-- Error raised by a handler (`HTTPException` in the source): status code,
detail message and the optional WWW-Authenticate response header (the only
header the source ever sets). A store fault that escapes a handler is
surfaced by the framework as a generic 500 error. -/
structure HTTPError where
  status : Nat
  detail : String
  www_authenticate : Option String
deriving Repr, DecidableEq

/-- Row of the `users` table, columns referenced by app.py:
id (SERIAL), username (UNIQUE), password_hash, intro_completed
(defaults FALSE), created_at (defaults NOW()). -/
structure UserRow where
  id : Nat
  username : String
  password_hash : String
  intro_completed : Bool
  created_at : Nat
deriving Repr, DecidableEq

/-- Identity dict returned by get_current_user, i.e. the projection
`SELECT id, username, intro_completed` of the matching users row. -/
structure UserIdentity where
  id : Nat
  username : String
  intro_completed : Bool
deriving Repr, DecidableEq

/-- Opaque emotion-wheel document (a JSON blob in the store), modelled by
its serialized form; the handlers only ever store and return it whole. -/
def EmotionWheel : Type := String
deriving instance Repr, DecidableEq for EmotionWheel

/-- Modelled from the spec: the `user_settings.emotion_wheel` column default
used when registration inserts a settings row with only `user_id` given.
The table schema is not part of the repository; the spec says the row is
auto-created at registration with a default value. No claim depends on the
concrete value. -/
def default_emotion_wheel : EmotionWheel := "default"

/-- Row of the `user_settings` table, columns referenced by app.py:
user_id, emotion_wheel, updated_at. -/
structure UserSettingsRow where
  user_id : Nat
  emotion_wheel : EmotionWheel
  updated_at : Nat
deriving Repr, DecidableEq

/-- Request body of POST /api/register (pydantic model UserCreate). -/
structure UserCreate where
  username : String
  password : String
deriving Repr, DecidableEq

/-- Success body of POST /api/register. -/
structure RegisterOk where
  message : String
  user_id : Nat
deriving Repr, DecidableEq

/-- Request body of POST /api/intro-reflection (pydantic IntroReflection). -/
structure IntroReflection where
  q1_important_events : String
  q2_current_thoughts : String
  q3_physical_symptoms : String
  q4_current_feelings : String
  q5_brought_closer : String
  q6_brought_further : String
  q7_change_in_10_weeks : String
deriving Repr, DecidableEq

/-- Row of the `intro_reflection` table (unique key user_id), columns
written by app.py. -/
structure IntroReflectionRow where
  user_id : Nat
  q1_important_events : String
  q2_current_thoughts : String
  q3_physical_symptoms : String
  q4_current_feelings : String
  q5_brought_closer : String
  q6_brought_further : String
  q7_change_in_10_weeks : String
deriving Repr, DecidableEq

/-- Request body of POST /api/entries (pydantic DailyEntry):
entry_date plus thirteen optional content fields. -/
structure DailyEntry where
  entry_date : Nat
  energy_level : Option Int
  selected_emotions : List String
  how_want_to_feel : Option String
  daily_mantra : Option String
  grateful_1 : Option String
  grateful_2 : Option String
  grateful_3 : Option String
  goal_1 : Option String
  goal_2 : Option String
  goal_3 : Option String
  selfcare_actions : Option String
  free_journal : Option String
  favorite_moment : Option String
deriving Repr, DecidableEq

/-- Row of the `daily_entries` table (unique key (user_id, entry_date)):
the columns the INSERT lists, plus created_at (selected by the list
endpoint, defaults NOW()) and updated_at (refreshed by the upsert). -/
structure DailyEntryRow where
  user_id : Nat
  entry_date : Nat
  energy_level : Option Int
  selected_emotions : List String
  how_want_to_feel : Option String
  daily_mantra : Option String
  grateful_1 : Option String
  grateful_2 : Option String
  grateful_3 : Option String
  goal_1 : Option String
  goal_2 : Option String
  goal_3 : Option String
  selfcare_actions : Option String
  free_journal : Option String
  favorite_moment : Option String
  created_at : Nat
  updated_at : Nat
deriving Repr, DecidableEq

/-- Request body of POST /api/weekly-reflection (pydantic WeeklyReflection). -/
structure WeeklyReflection where
  week_number : Nat
  week_start_date : Nat
  week_end_date : Nat
  current_mood : Option String
  important_results : Option String
  important_realizations : Option String
  proud_1 : Option String
  proud_2 : Option String
  proud_3 : Option String
  proud_4 : Option String
  proud_5 : Option String
  change_phase : Option String
  change_reflection : Option String
  next_week_focus : Option String
  task_1 : Option String
  task_2 : Option String
  task_3 : Option String
  task_4 : Option String
  task_5 : Option String
deriving Repr, DecidableEq

/-- Row of the `weekly_reflections` table (unique key (user_id, week_number)):
exactly the columns the INSERT lists; the handlers reference no timestamp
columns on this table. -/
structure WeeklyReflectionRow where
  user_id : Nat
  week_number : Nat
  week_start_date : Nat
  week_end_date : Nat
  current_mood : Option String
  important_results : Option String
  important_realizations : Option String
  proud_1 : Option String
  proud_2 : Option String
  proud_3 : Option String
  proud_4 : Option String
  proud_5 : Option String
  change_phase : Option String
  change_reflection : Option String
  next_week_focus : Option String
  task_1 : Option String
  task_2 : Option String
  task_3 : Option String
  task_4 : Option String
  task_5 : Option String
deriving Repr, DecidableEq

/-- Row of the `final_reflection` table (unique key user_id), columns
written by app.py. -/
structure FinalReflectionRow where
  user_id : Nat
  q1_starting_point : String
  q2_feeling_and_goal : String
  q3_journey_obstacles : String
  q4_arrival_changes : String
  q5_self_learning : String
  q6_future_path : String
  q7_journaling_impact : String
  q8_celebration : String
deriving Repr, DecidableEq

/-- State of the PostgreSQL store: one list of rows per table app.py uses. -/
structure DB where
  users : List UserRow
  user_settings : List UserSettingsRow
  intro_reflection : List IntroReflectionRow
  daily_entries : List DailyEntryRow
  weekly_reflections : List WeeklyReflectionRow
  final_reflection : List FinalReflectionRow
deriving Repr, DecidableEq

/-- Empty store. -/
def empty_db : DB := ⟨[], [], [], [], [], []⟩

/-- Dependency get_current_user (app.py lines 122-138): hashes the supplied
password, looks up `SELECT id, username, intro_completed FROM users WHERE
username = $1 AND password_hash = $2`; a miss raises 401 with the
`WWW-Authenticate: Basic` header, a hit yields the identity dict. -/
def get_current_user (hash_password : String → String) (db : DB)
    (username password : String) : Except HTTPError UserIdentity :=
  let password_hash := hash_password password
  match db.users.find? (fun u => u.username == username && u.password_hash == password_hash) with
  | some u => Except.ok ⟨u.id, u.username, u.intro_completed⟩
  | none => Except.error ⟨401, "Invalid credentials", some "Basic"⟩

/-- FastAPI dependency injection for a protected route: get_current_user
runs first; if it raises, the response is its error and the route handler
body never runs; otherwise the handler receives the resolved identity. -/
def run_protected {α : Type} (hash_password : String → String) (db : DB)
    (username password : String) (handler : UserIdentity → Except HTTPError α) :
    Except HTTPError α :=
  match get_current_user hash_password db username password with
  | Except.error e => Except.error e
  | Except.ok u => handler u

/-- Handler POST /api/register (app.py lines 141-160). The source acquires
a pooled connection and runs two INSERT statements on it with no
surrounding transaction, so asyncpg commits each statement separately: the
users INSERT is already durable when the user_settings INSERT runs.
`new_id` models the id produced by `RETURNING id`; `now` the DB clock for
the created_at/updated_at column defaults. A duplicate username makes the
first INSERT raise UniqueViolationError, which the handler catches and
maps to a 400 response (no user row is created in that case).
`settings_fault` models a store fault raised by the second INSERT (e.g. a
transient connectivity failure): the exception escapes the handler as a
generic 500 response and the already committed user row is not rolled
back. -/
def register (hash_password : String → String) (db : DB) (u : UserCreate)
    (new_id now : Nat) (settings_fault : Bool) : DB × Except HTTPError RegisterOk :=
  if db.users.any (fun r => r.username == u.username) then
    (db, Except.error ⟨400, "Username already exists", none⟩)
  else
    let db1 : DB :=
      { db with users := db.users ++ [⟨new_id, u.username, hash_password u.password, false, now⟩] }
    if settings_fault then
      (db1, Except.error ⟨500, "Internal Server Error", none⟩)
    else
      ({ db1 with user_settings := db1.user_settings ++ [⟨new_id, default_emotion_wheel, now⟩] },
       Except.ok ⟨"User created successfully", new_id⟩)

/-- Row produced by the intro-reflection upsert when the user already has a
row: the ON CONFLICT (user_id) DO UPDATE SET list overwrites all seven
question columns (user_id is the conflict key and is kept). -/
def intro_update (r : IntroReflection) (row : IntroReflectionRow) : IntroReflectionRow :=
  { row with
    q1_important_events := r.q1_important_events
    q2_current_thoughts := r.q2_current_thoughts
    q3_physical_symptoms := r.q3_physical_symptoms
    q4_current_feelings := r.q4_current_feelings
    q5_brought_closer := r.q5_brought_closer
    q6_brought_further := r.q6_brought_further
    q7_change_in_10_weeks := r.q7_change_in_10_weeks }

/-- Handler POST /api/intro-reflection (app.py lines 178-208): upserts the
intro_reflection row for the current user, then runs
`UPDATE users SET intro_completed = TRUE WHERE id = $1`. -/
def save_intro_reflection (db : DB) (uid : Nat) (r : IntroReflection) : DB × String :=
  let rows :=
    if db.intro_reflection.any (fun row => row.user_id == uid) then
      db.intro_reflection.map (fun row =>
        if row.user_id == uid then intro_update r row else row)
    else
      db.intro_reflection ++
        [⟨uid, r.q1_important_events, r.q2_current_thoughts, r.q3_physical_symptoms,
          r.q4_current_feelings, r.q5_brought_closer, r.q6_brought_further,
          r.q7_change_in_10_weeks⟩]
  let users := db.users.map (fun usr =>
    if usr.id == uid then { usr with intro_completed := true } else usr)
  ({ db with intro_reflection := rows, users := users }, "Intro reflection saved successfully")

/-- Handler GET /api/intro-reflection (app.py lines 210-221): `SELECT *
FROM intro_reflection WHERE user_id = $1`; raises 404 when absent. -/
def get_intro_reflection (db : DB) (uid : Nat) : Except HTTPError IntroReflectionRow :=
  match db.intro_reflection.find? (fun row => row.user_id == uid) with
  | some row => Except.ok row
  | none => Except.error ⟨404, "Intro reflection not found", none⟩

/-- Row produced by the daily-entry upsert when (user_id, entry_date)
already exists: the ON CONFLICT DO UPDATE SET list overwrites the thirteen
content columns and refreshes updated_at to NOW(); user_id, entry_date and
created_at are not in the SET list and keep their stored values. -/
def daily_update (e : DailyEntry) (now : Nat) (row : DailyEntryRow) : DailyEntryRow :=
  { row with
    energy_level := e.energy_level
    selected_emotions := e.selected_emotions
    how_want_to_feel := e.how_want_to_feel
    daily_mantra := e.daily_mantra
    grateful_1 := e.grateful_1
    grateful_2 := e.grateful_2
    grateful_3 := e.grateful_3
    goal_1 := e.goal_1
    goal_2 := e.goal_2
    goal_3 := e.goal_3
    selfcare_actions := e.selfcare_actions
    free_journal := e.free_journal
    favorite_moment := e.favorite_moment
    updated_at := now }

/-- Row produced by the daily-entry upsert when the key is fresh: the
INSERT lists user_id, entry_date and the thirteen content columns;
created_at and updated_at take their NOW() column defaults. -/
def daily_insert (uid : Nat) (e : DailyEntry) (now : Nat) : DailyEntryRow :=
  ⟨uid, e.entry_date, e.energy_level, e.selected_emotions, e.how_want_to_feel,
   e.daily_mantra, e.grateful_1, e.grateful_2, e.grateful_3, e.goal_1, e.goal_2,
   e.goal_3, e.selfcare_actions, e.free_journal, e.favorite_moment, now, now⟩

/-- Handler POST /api/entries (app.py lines 224-257): single INSERT ... ON
CONFLICT (user_id, entry_date) DO UPDATE statement. -/
def save_daily_entry (db : DB) (uid : Nat) (e : DailyEntry) (now : Nat) : DB × String :=
  let rows :=
    if db.daily_entries.any (fun r => r.user_id == uid && r.entry_date == e.entry_date) then
      db.daily_entries.map (fun r =>
        if r.user_id == uid && r.entry_date == e.entry_date then daily_update e now r else r)
    else
      db.daily_entries ++ [daily_insert uid e now]
  ({ db with daily_entries := rows }, "Entry saved successfully")

/-- Handler GET /api/entries/(entry_date) (app.py lines 259-273): `SELECT *
FROM daily_entries WHERE user_id = $1 AND entry_date = $2`; returns the
JSON null body (not an error) when absent. -/
def get_daily_entry (db : DB) (uid : Nat) (entry_date : Nat) : Option DailyEntryRow :=
  db.daily_entries.find? (fun r => r.user_id == uid && r.entry_date == entry_date)

/-- Summary shape returned by the list endpoint: the projection
`SELECT entry_date, selected_emotions, created_at`. -/
structure DailySummary where
  entry_date : Nat
  selected_emotions : List String
  created_at : Nat
deriving Repr, DecidableEq

/-- Ordering used by `ORDER BY entry_date DESC`. -/
def entry_date_desc (a b : DailyEntryRow) : Prop := b.entry_date ≤ a.entry_date

instance : DecidableRel entry_date_desc :=
  fun a b => inferInstanceAs (Decidable (b.entry_date ≤ a.entry_date))

instance : IsTotal DailyEntryRow entry_date_desc :=
  ⟨fun a b => Nat.le_total b.entry_date a.entry_date⟩

instance : IsTrans DailyEntryRow entry_date_desc :=
  ⟨fun _ _ _ h1 h2 => Nat.le_trans h2 h1⟩

/-- Default value of the `limit` query parameter of GET /api/entries. -/
def default_limit : Nat := 30

/-- Handler GET /api/entries (app.py lines 275-290): `SELECT entry_date,
selected_emotions, created_at FROM daily_entries WHERE user_id = $1 ORDER
BY entry_date DESC LIMIT $2`. The WHERE clause is the filter, ORDER BY a
sort by the descending date order, LIMIT the take, and the column list the
final projection. -/
def list_entries (db : DB) (uid : Nat) (limit : Nat) : List DailySummary :=
  ((((db.daily_entries.filter (fun r => r.user_id == uid)).insertionSort
      entry_date_desc).take limit).map
    (fun r => ⟨r.entry_date, r.selected_emotions, r.created_at⟩))

/-- Row produced by the weekly-reflection upsert when (user_id, week_number)
already exists: the ON CONFLICT DO UPDATE SET list overwrites the sixteen
content columns; user_id and week_number are the conflict key, and
week_start_date and week_end_date are NOT in the SET list, so all four keep
their stored values. -/
def weekly_update (r : WeeklyReflection) (row : WeeklyReflectionRow) : WeeklyReflectionRow :=
  { row with
    current_mood := r.current_mood
    important_results := r.important_results
    important_realizations := r.important_realizations
    proud_1 := r.proud_1
    proud_2 := r.proud_2
    proud_3 := r.proud_3
    proud_4 := r.proud_4
    proud_5 := r.proud_5
    change_phase := r.change_phase
    change_reflection := r.change_reflection
    next_week_focus := r.next_week_focus
    task_1 := r.task_1
    task_2 := r.task_2
    task_3 := r.task_3
    task_4 := r.task_4
    task_5 := r.task_5 }

/-- Row produced by the weekly-reflection upsert on a fresh key. -/
def weekly_insert (uid : Nat) (r : WeeklyReflection) : WeeklyReflectionRow :=
  ⟨uid, r.week_number, r.week_start_date, r.week_end_date, r.current_mood,
   r.important_results, r.important_realizations, r.proud_1, r.proud_2, r.proud_3,
   r.proud_4, r.proud_5, r.change_phase, r.change_reflection, r.next_week_focus,
   r.task_1, r.task_2, r.task_3, r.task_4, r.task_5⟩

/-- Handler POST /api/weekly-reflection (app.py lines 293-332): single
INSERT ... ON CONFLICT (user_id, week_number) DO UPDATE statement. -/
def save_weekly_reflection (db : DB) (uid : Nat) (r : WeeklyReflection) : DB × String :=
  let rows :=
    if db.weekly_reflections.any (fun q => q.user_id == uid && q.week_number == r.week_number) then
      db.weekly_reflections.map (fun q =>
        if q.user_id == uid && q.week_number == r.week_number then weekly_update r q else q)
    else
      db.weekly_reflections ++ [weekly_insert uid r]
  ({ db with weekly_reflections := rows }, "Weekly reflection saved successfully")

/-- Handler GET /api/weekly-reflection/(week_number) (app.py lines 334-348):
returns the JSON null body (not an error) when absent. -/
def get_weekly_reflection (db : DB) (uid : Nat) (week_number : Nat) :
    Option WeeklyReflectionRow :=
  db.weekly_reflections.find? (fun q => q.user_id == uid && q.week_number == week_number)

/-- Handler GET /api/final-reflection (app.py lines 393-404): `SELECT *
FROM final_reflection WHERE user_id = $1`; the source runs
`if not reflection: return None` — it returns the JSON null body and
raises nothing when the row is absent (unlike the intro-reflection get). -/
def get_final_reflection (db : DB) (uid : Nat) : Option FinalReflectionRow :=
  db.final_reflection.find? (fun row => row.user_id == uid)

/-- Handler GET /api/settings/emotion-wheel (app.py lines 407-418):
`SELECT emotion_wheel FROM user_settings WHERE user_id = $1`; raises 404
when the settings row is missing. -/
def get_emotion_wheel (db : DB) (uid : Nat) : Except HTTPError EmotionWheel :=
  match db.user_settings.find? (fun s => s.user_id == uid) with
  | some s => Except.ok s.emotion_wheel
  | none => Except.error ⟨404, "Settings not found", none⟩

/-- Handler PUT /api/settings/emotion-wheel (app.py lines 420-431):
`UPDATE user_settings SET emotion_wheel = $1, updated_at = NOW() WHERE
user_id = $2`, then unconditionally returns the success message — a zero
row match leaves the store untouched and still reports success. -/
def update_emotion_wheel (db : DB) (uid : Nat) (doc : EmotionWheel) (now : Nat) :
    DB × String :=
  ({ db with user_settings := db.user_settings.map (fun s =>
      if s.user_id == uid then { s with emotion_wheel := doc, updated_at := now } else s) },
   "Emotion wheel updated successfully")

/-
Shared list lemmas about the upsert pattern `map (fun x => if p x then g x
else x)` used by every ON CONFLICT DO UPDATE branch above.
-/

/-- Updating exactly the rows matched by `p`, through a `g` that keeps them
matching, commutes with the first-match lookup. -/
theorem find?_map_update {α : Type} (p : α → Bool) (g : α → α)
    (hg : ∀ x, p x = true → p (g x) = true) (l : List α) :
    List.find? p (l.map (fun x => if p x then g x else x)) =
      Option.map g (List.find? p l) := by
  induction l with
  | nil => rfl
  | cons a t ih =>
    by_cases h : p a = true
    · simp [List.find?_cons, h, hg a h]
    · have h' : p a = false := by simpa using h
      simp [List.find?_cons, h', ih]

/-- Updating only the rows matched by `p`, through a `g` that keeps them
matching, does not change how many rows match `p`. -/
theorem length_filter_map_update {α : Type} (p : α → Bool) (g : α → α)
    (hg : ∀ x, p x = true → p (g x) = true) (l : List α) :
    ((l.map (fun x => if p x then g x else x)).filter p).length =
      (l.filter p).length := by
  rw [List.filter_map]
  have hcongr : l.filter (p ∘ fun x => if p x then g x else x) = l.filter p := by
    apply List.filter_congr
    intro x _
    by_cases h : p x = true
    · simp [Function.comp, h, hg x h]
    · have h' : p x = false := by simpa using h
      simp [Function.comp, h']
  rw [hcongr, List.length_map]

/-- Updating only the rows matched by `p` keeps at least one match when
there was one. -/
theorem any_map_update {α : Type} (p : α → Bool) (g : α → α)
    (hg : ∀ x, p x = true → p (g x) = true) (l : List α)
    (h : l.any p = true) :
    (l.map (fun x => if p x then g x else x)).any p = true := by
  rw [List.any_eq_true] at h ⊢
  obtain ⟨x, hx, hpx⟩ := h
  refine ⟨if p x then g x else x, List.mem_map_of_mem _ hx, ?_⟩
  simp [hpx, hg x hpx]

/-- Applying the conditional update twice is the same as applying it once,
when `g` is idempotent and keeps matched rows matching. -/
theorem map_update_idem {α : Type} (p : α → Bool) (g : α → α)
    (hg : ∀ x, p x = true → p (g x) = true)
    (hgg : ∀ x, g (g x) = g x) (l : List α) :
    (l.map (fun x => if p x then g x else x)).map (fun x => if p x then g x else x) =
      l.map (fun x => if p x then g x else x) := by
  rw [List.map_map]
  apply List.map_congr_left
  intro a _
  by_cases h : p a = true
  · simp [Function.comp, h, hg a h, hgg a]
  · have h' : p a = false := by simpa using h
    simp [Function.comp, h']

/-- Rows rejected by a filter `q` that the update leaves untouched form the
same sublist before and after the conditional map. -/
theorem filter_map_fix {α : Type} (q : α → Bool) (f : α → α)
    (h1 : ∀ x, q x = true → f x = x) (h2 : ∀ x, q x = false → q (f x) = false)
    (l : List α) :
    (l.map f).filter q = l.filter q := by
  induction l with
  | nil => rfl
  | cons a t ih =>
    by_cases h : q a = true
    · simp [List.filter_cons, h1 a h, h, ih]
    · have h' : q a = false := by simpa using h
      simp [List.filter_cons, h', h2 a h', ih]

/-
Claim theorems.
-/

/-- C1: the claim says register creates the user row and the default
settings row as one atomic unit, a partial state being unobservable even
when the second insert fails. The source runs the two INSERT statements on
a pooled connection with no transaction, so asyncpg commits them one by
one: when the user_settings INSERT faults, the already committed user row
survives with no settings row and the handler answers with a 500 error —
exactly the partial state the claim rules out. This theorem evaluates
register at that failing input on the empty store. -/
theorem register_not_atomic :
    (register (fun s => s) empty_db ⟨"alice", "pw"⟩ 1 0 true).1 =
      ⟨[⟨1, "alice", "pw", false, 0⟩], [], [], [], [], []⟩ ∧
    (register (fun s => s) empty_db ⟨"alice", "pw"⟩ 1 0 true).2 =
      Except.error ⟨500, "Internal Server Error", none⟩ := by
  exact ⟨rfl, rfl⟩

/-- C2 counterexample: on the empty store, where user 1 never saved any
reflection, the final-reflection get returns the null body — its handler
contains no raise at all — while only the intro-reflection get signals 404.
The claim as stated (FinalReflection gets signal NotFound rather than
returning none) is therefore false at this input. -/
theorem final_get_absent_returns_none :
    get_final_reflection empty_db 1 = none ∧
    get_intro_reflection empty_db 1 =
      Except.error ⟨404, "Intro reflection not found", none⟩ := by
  exact ⟨rfl, rfl⟩

/-- C2 amended: for every user, fetching an IntroReflection that was never
saved signals NotFound (HTTP 404), while fetching an absent FinalReflection,
DailyEntry or WeeklyReflection returns none (not an error). -/
theorem absent_get_policy (db : DB) (uid d w : Nat)
    (hi : ∀ r ∈ db.intro_reflection, r.user_id ≠ uid)
    (hf : ∀ r ∈ db.final_reflection, r.user_id ≠ uid)
    (hd : ∀ r ∈ db.daily_entries, r.user_id = uid → r.entry_date ≠ d)
    (hw : ∀ r ∈ db.weekly_reflections, r.user_id = uid → r.week_number ≠ w) :
    get_intro_reflection db uid =
      Except.error ⟨404, "Intro reflection not found", none⟩ ∧
    get_final_reflection db uid = none ∧
    get_daily_entry db uid d = none ∧
    get_weekly_reflection db uid w = none := by
  refine ⟨?_, ?_, ?_, ?_⟩
  · unfold get_intro_reflection
    have hnone : db.intro_reflection.find? (fun row => row.user_id == uid) = none := by
      rw [List.find?_eq_none]
      intro x hx
      simpa using hi x hx
    rw [hnone]
  · unfold get_final_reflection
    rw [List.find?_eq_none]
    intro x hx
    simpa using hf x hx
  · unfold get_daily_entry
    rw [List.find?_eq_none]
    intro x hx
    simp only [Bool.and_eq_true, beq_iff_eq, not_and]
    exact fun h1 => hd x hx h1
  · unfold get_weekly_reflection
    rw [List.find?_eq_none]
    intro x hx
    simp only [Bool.and_eq_true, beq_iff_eq, not_and]
    exact fun h1 => hw x hx h1

/-- C2 amended witness: the four absence hypotheses hold on the empty
store, where the policy evaluates as stated. -/
theorem absent_get_policy_witness :
    get_intro_reflection empty_db 1 =
      Except.error ⟨404, "Intro reflection not found", none⟩ ∧
    get_final_reflection empty_db 1 = none ∧
    get_daily_entry empty_db 1 0 = none ∧
    get_weekly_reflection empty_db 1 0 = none :=
  absent_get_policy empty_db 1 0 0 (by simp [empty_db]) (by simp [empty_db])
    (by simp [empty_db]) (by simp [empty_db])

/-- Weekly-reflection payload with all sixteen optional content fields
absent, used for concrete upsert scenarios. -/
def wr_demo (n s e : Nat) : WeeklyReflection :=
  ⟨n, s, e, none, none, none, none, none, none, none, none, none, none, none,
   none, none, none, none, none⟩

/-- C3 counterexample: upserting week 1 for user 1 with dates (10, 16) and
then again with dates (20, 26) leaves the stored dates at (10, 16) — the
ON CONFLICT SET list of save_weekly_reflection omits week_start_date and
week_end_date, so the second upsert does not overwrite them as the claim
requires (it would leave (20, 26)). -/
theorem weekly_upsert_dates_counterexample :
    ((save_weekly_reflection (save_weekly_reflection empty_db 1 (wr_demo 1 10 16)).1
        1 (wr_demo 1 20 26)).1.weekly_reflections.map
      (fun q => (q.week_start_date, q.week_end_date))) = [(10, 16)] := by
  rfl

/-- C3 amended: upserting a WeeklyReflection onto an existing
(user_id, week_number) row overwrites the sixteen content fields with the
supplied values but keeps the stored week_start_date and week_end_date and
the key columns: the row fetched after the save is exactly the supplied
payload laid over the old dates. -/
theorem weekly_upsert_full_replace_except_dates (db : DB) (uid : Nat)
    (r : WeeklyReflection) (row : WeeklyReflectionRow)
    (hfind : db.weekly_reflections.find?
      (fun q => q.user_id == uid && q.week_number == r.week_number) = some row) :
    get_weekly_reflection (save_weekly_reflection db uid r).1 uid r.week_number =
      some ⟨row.user_id, row.week_number, row.week_start_date, row.week_end_date,
        r.current_mood, r.important_results, r.important_realizations,
        r.proud_1, r.proud_2, r.proud_3, r.proud_4, r.proud_5,
        r.change_phase, r.change_reflection, r.next_week_focus,
        r.task_1, r.task_2, r.task_3, r.task_4, r.task_5⟩ := by
  have hg : ∀ q : WeeklyReflectionRow,
      (q.user_id == uid && q.week_number == r.week_number) = true →
      ((weekly_update r q).user_id == uid && (weekly_update r q).week_number == r.week_number)
        = true := by
    intro q hq
    simpa [weekly_update] using hq
  have hany : db.weekly_reflections.any
      (fun q => q.user_id == uid && q.week_number == r.week_number) = true := by
    rw [List.any_eq_true]
    have hmem := List.mem_of_find?_eq_some hfind
    have hp := List.find?_some hfind
    exact ⟨row, hmem, hp⟩
  unfold save_weekly_reflection get_weekly_reflection
  rw [if_pos hany]
  rw [find?_map_update _ (weekly_update r) hg, hfind]
  rfl

/-- C3 amended witness: the concrete two-upsert scenario of the
counterexample, fed through the amended theorem. -/
theorem weekly_upsert_full_replace_witness :
    get_weekly_reflection
        (save_weekly_reflection (save_weekly_reflection empty_db 1 (wr_demo 1 10 16)).1
          1 (wr_demo 1 20 26)).1 1 1 =
      some ⟨1, 1, 10, 16, none, none, none, none, none, none, none, none, none,
        none, none, none, none, none, none, none⟩ :=
  weekly_upsert_full_replace_except_dates
    (save_weekly_reflection empty_db 1 (wr_demo 1 10 16)).1 1 (wr_demo 1 20 26)
    (weekly_insert 1 (wr_demo 1 10 16)) (by rfl)

/-- C10: upserting a DailyEntry onto an existing (user_id, entry_date) row
keeps the stored created_at and the identity columns user_id and
entry_date, and overwrites exactly the thirteen content fields and
updated_at: the row fetched after the save is the supplied payload laid
over the old key and created_at, with updated_at refreshed to the clock. -/
theorem daily_upsert_preserves_created_at (db : DB) (uid : Nat) (e : DailyEntry)
    (now : Nat) (row : DailyEntryRow)
    (hfind : db.daily_entries.find?
      (fun q => q.user_id == uid && q.entry_date == e.entry_date) = some row) :
    get_daily_entry (save_daily_entry db uid e now).1 uid e.entry_date =
      some ⟨row.user_id, row.entry_date, e.energy_level, e.selected_emotions,
        e.how_want_to_feel, e.daily_mantra, e.grateful_1, e.grateful_2, e.grateful_3,
        e.goal_1, e.goal_2, e.goal_3, e.selfcare_actions, e.free_journal,
        e.favorite_moment, row.created_at, now⟩ := by
  have hg : ∀ q : DailyEntryRow,
      (q.user_id == uid && q.entry_date == e.entry_date) = true →
      ((daily_update e now q).user_id == uid && (daily_update e now q).entry_date == e.entry_date)
        = true := by
    intro q hq
    simpa [daily_update] using hq
  have hany : db.daily_entries.any
      (fun q => q.user_id == uid && q.entry_date == e.entry_date) = true := by
    rw [List.any_eq_true]
    have hmem := List.mem_of_find?_eq_some hfind
    have hp := List.find?_some hfind
    exact ⟨row, hmem, hp⟩
  unfold save_daily_entry get_daily_entry
  rw [if_pos hany]
  rw [find?_map_update _ (daily_update e now) hg, hfind]
  rfl

/-- Daily-entry payload with all thirteen optional content fields absent. -/
def de_demo (d : Nat) : DailyEntry :=
  ⟨d, none, [], none, none, none, none, none, none, none, none, none, none, none⟩

/-- C10 witness: insert date 7 for user 1 at clock 3, upsert the same date
at clock 9 with energy_level 5; the fetched row keeps created_at 3 (and
the key) while carrying the new payload and updated_at 9. -/
theorem daily_upsert_preserves_created_at_witness :
    get_daily_entry
        (save_daily_entry (save_daily_entry empty_db 1 (de_demo 7) 3).1 1
          ⟨7, some 5, [], none, none, none, none, none, none, none, none, none,
            none, none⟩ 9).1 1 7 =
      some ⟨1, 7, some 5, [], none, none, none, none, none, none, none, none,
        none, none, none, 3, 9⟩ :=
  daily_upsert_preserves_created_at (save_daily_entry empty_db 1 (de_demo 7) 3).1 1
    ⟨7, some 5, [], none, none, none, none, none, none, none, none, none, none, none⟩
    9 (daily_insert 1 (de_demo 7) 3) (by rfl)

/-- C4: upserting a DailyEntry for the same (user_id, entry_date) leaves
exactly one row for that key (assuming the store satisfies the UNIQUE
(user_id, entry_date) constraint, i.e. at most one row matched the key
before), whose content fields equal the latest upsert's values with
updated_at refreshed; replaying the identical save request converges to
the same store without duplicates, and the handler always answers the
success message (no error path exists in it). -/
theorem daily_upsert_single_row_idempotent (db : DB) (uid : Nat) (e : DailyEntry)
    (now : Nat)
    (hwf : (db.daily_entries.filter
      (fun r => r.user_id == uid && r.entry_date == e.entry_date)).length ≤ 1) :
    ((save_daily_entry db uid e now).1.daily_entries.filter
      (fun r => r.user_id == uid && r.entry_date == e.entry_date)).length = 1 ∧
    (∀ r, get_daily_entry (save_daily_entry db uid e now).1 uid e.entry_date = some r →
      r.user_id = uid ∧ r.entry_date = e.entry_date ∧
      r.energy_level = e.energy_level ∧ r.selected_emotions = e.selected_emotions ∧
      r.how_want_to_feel = e.how_want_to_feel ∧ r.daily_mantra = e.daily_mantra ∧
      r.grateful_1 = e.grateful_1 ∧ r.grateful_2 = e.grateful_2 ∧
      r.grateful_3 = e.grateful_3 ∧ r.goal_1 = e.goal_1 ∧ r.goal_2 = e.goal_2 ∧
      r.goal_3 = e.goal_3 ∧ r.selfcare_actions = e.selfcare_actions ∧
      r.free_journal = e.free_journal ∧ r.favorite_moment = e.favorite_moment ∧
      r.updated_at = now) ∧
    (get_daily_entry (save_daily_entry db uid e now).1 uid e.entry_date).isSome = true ∧
    save_daily_entry (save_daily_entry db uid e now).1 uid e now =
      ((save_daily_entry db uid e now).1, "Entry saved successfully") ∧
    (save_daily_entry db uid e now).2 = "Entry saved successfully" := by
  have hg : ∀ q : DailyEntryRow,
      (q.user_id == uid && q.entry_date == e.entry_date) = true →
      ((daily_update e now q).user_id == uid &&
        (daily_update e now q).entry_date == e.entry_date) = true := by
    intro q hq
    simpa [daily_update] using hq
  have hgg : ∀ q : DailyEntryRow,
      daily_update e now (daily_update e now q) = daily_update e now q := fun _ => rfl
  have hins : ((daily_insert uid e now).user_id == uid &&
      (daily_insert uid e now).entry_date == e.entry_date) = true := by
    simp [daily_insert]
  by_cases hany : db.daily_entries.any
      (fun r => r.user_id == uid && r.entry_date == e.entry_date) = true
  · -- conflict branch: the single statement runs its DO UPDATE arm
    have hsave : save_daily_entry db uid e now =
        ({db with
            daily_entries := db.daily_entries.map (fun r =>
              if r.user_id == uid && r.entry_date == e.entry_date then
                daily_update e now r
              else r)},
         "Entry saved successfully") := by
      simp only [save_daily_entry]
      rw [if_pos hany]
    obtain ⟨x, hx, hpx⟩ := List.any_eq_true.mp hany
    have hfind : (db.daily_entries.find?
        (fun r => r.user_id == uid && r.entry_date == e.entry_date)).isSome = true := by
      rw [List.find?_isSome]
      exact ⟨x, hx, hpx⟩
    obtain ⟨y, hy⟩ := Option.isSome_iff_exists.mp hfind
    have hpy := List.find?_some hy
    refine ⟨?_, ?_, ?_, ?_, ?_⟩
    · rw [hsave]
      dsimp only
      rw [length_filter_map_update _ _ hg]
      refine Nat.le_antisymm hwf ?_
      have hxf : x ∈ db.daily_entries.filter
          (fun r => r.user_id == uid && r.entry_date == e.entry_date) :=
        List.mem_filter.mpr ⟨hx, hpx⟩
      exact List.length_pos_of_mem hxf
    · intro r hr
      rw [hsave] at hr
      dsimp only [get_daily_entry] at hr
      rw [find?_map_update _ _ hg, hy] at hr
      have hreq : r = daily_update e now y := by
        simpa using hr.symm
      subst hreq
      have hpy2 : y.user_id = uid ∧ y.entry_date = e.entry_date := by
        simpa using hpy
      have huid := hpy2.1
      have hdate := hpy2.2
      simp [daily_update, huid, hdate]
    · rw [hsave]
      dsimp only [get_daily_entry]
      rw [find?_map_update _ _ hg, hy]
      rfl
    · have hany2 : ((db.daily_entries.map (fun r =>
          if r.user_id == uid && r.entry_date == e.entry_date then
            daily_update e now r
          else r)).any
          (fun r => r.user_id == uid && r.entry_date == e.entry_date)) = true :=
        any_map_update _ _ hg _ hany
      rw [hsave]
      dsimp only
      simp only [save_daily_entry]
      rw [if_pos hany2]
      rw [map_update_idem _ _ hg hgg]
    · rw [hsave]
  · -- fresh-key branch: the single statement runs its INSERT arm
    have hanyf : db.daily_entries.any
        (fun r => r.user_id == uid && r.entry_date == e.entry_date) = false := by
      simpa using hany
    have hnone : db.daily_entries.find?
        (fun r => r.user_id == uid && r.entry_date == e.entry_date) = none := by
      rw [List.find?_eq_none]
      intro x hx hpx
      rw [List.any_eq_false] at hanyf
      exact hanyf x hx hpx
    have hsave : save_daily_entry db uid e now =
        ({db with
            daily_entries := db.daily_entries ++ [daily_insert uid e now]},
         "Entry saved successfully") := by
      simp only [save_daily_entry]
      rw [if_neg hany]
    refine ⟨?_, ?_, ?_, ?_, ?_⟩
    · rw [hsave]
      dsimp only
      rw [List.filter_append]
      have h1 : db.daily_entries.filter
          (fun r => r.user_id == uid && r.entry_date == e.entry_date) = [] := by
        rw [List.filter_eq_nil_iff]
        rw [List.any_eq_false] at hanyf
        exact hanyf
      rw [h1]
      simp [hins]
    · intro r hr
      rw [hsave] at hr
      dsimp only [get_daily_entry] at hr
      rw [List.find?_append, hnone] at hr
      simp only [List.find?_cons, hins, Option.none_or] at hr
      have hreq : r = daily_insert uid e now := by
        simpa using hr.symm
      subst hreq
      simp [daily_insert]
    · rw [hsave]
      dsimp only [get_daily_entry]
      rw [List.find?_append, hnone]
      simp only [List.find?_cons, hins, Option.none_or]
      rfl
    · have hany2 : ((db.daily_entries ++ [daily_insert uid e now]).any
          (fun r => r.user_id == uid && r.entry_date == e.entry_date)) = true := by
        rw [List.any_eq_true]
        exact ⟨daily_insert uid e now, by simp, hins⟩
      rw [hsave]
      dsimp only
      simp only [save_daily_entry]
      rw [if_pos hany2]
      rw [List.map_append]
      have hmapl : db.daily_entries.map (fun r =>
          if r.user_id == uid && r.entry_date == e.entry_date then
            daily_update e now r
          else r) = db.daily_entries := by
        have hfix : ∀ r ∈ db.daily_entries,
            (if r.user_id == uid && r.entry_date == e.entry_date then
              daily_update e now r
            else r) = r := by
          intro r hrr
          rw [List.any_eq_false] at hanyf
          have hnp : ¬(r.user_id == uid && r.entry_date == e.entry_date) = true :=
            hanyf r hrr
          simp [hnp]
        rw [List.map_congr_left hfix]
        exact List.map_id _
      rw [hmapl]
      have hmapins : [daily_insert uid e now].map (fun r =>
          if r.user_id == uid && r.entry_date == e.entry_date then
            daily_update e now r
          else r) = [daily_insert uid e now] := by
        simp only [List.map_cons, List.map_nil, hins, if_true]
        rfl
      rw [hmapins]
    · rw [hsave]

/-- C4 witness: on the empty store, saving date 7 for user 1 with
energy_level 2 and then with energy_level 5 at clock 1 leaves one row for
the key carrying the latest values. -/
theorem daily_upsert_single_row_witness :
    (((save_daily_entry (save_daily_entry empty_db 1
        ⟨7, some 2, [], none, none, none, none, none, none, none, none, none,
          none, none⟩ 1).1 1
        ⟨7, some 5, [], none, none, none, none, none, none, none, none, none,
          none, none⟩ 1).1.daily_entries.filter
      (fun r => r.user_id == 1 && r.entry_date == 7)).length = 1) ∧
    (save_daily_entry (save_daily_entry empty_db 1
        ⟨7, some 2, [], none, none, none, none, none, none, none, none, none,
          none, none⟩ 1).1 1
      ⟨7, some 5, [], none, none, none, none, none, none, none, none, none,
        none, none⟩ 1).1.daily_entries =
      [⟨1, 7, some 5, [], none, none, none, none, none, none, none, none, none,
        none, none, 1, 1⟩] :=
  ⟨(daily_upsert_single_row_idempotent (save_daily_entry empty_db 1
      ⟨7, some 2, [], none, none, none, none, none, none, none, none, none,
        none, none⟩ 1).1 1
      ⟨7, some 5, [], none, none, none, none, none, none, none, none, none,
        none, none⟩ 1 (by decide)).1, by rfl⟩

/-- Rows produced by the users UPDATE of save_intro_reflection: every row
whose id matches carries intro_completed = true afterwards. -/
theorem intro_flag_after_map (l : List UserRow) (uid : Nat) :
    ∀ u ∈ l.map (fun usr =>
      if usr.id == uid then { usr with intro_completed := true } else usr),
      u.id = uid → u.intro_completed = true := by
  intro u hu hid
  obtain ⟨x, hx, hfx⟩ := List.mem_map.mp hu
  by_cases h : (x.id == uid) = true
  · rw [if_pos h] at hfx
    subst hfx
    rfl
  · rw [if_neg h] at hfx
    subst hfx
    exact absurd (by simpa using hid) h

/-- The users UPDATE of save_intro_reflection never clears the flag: rows
that already carried intro_completed = true for a given id still carry it
after an update targeting any id. -/
theorem intro_flag_mono (l : List UserRow) (uid v : Nat)
    (h : ∀ u ∈ l, u.id = uid → u.intro_completed = true) :
    ∀ u ∈ l.map (fun usr =>
      if usr.id == v then { usr with intro_completed := true } else usr),
      u.id = uid → u.intro_completed = true := by
  intro u hu hid
  obtain ⟨x, hx, hfx⟩ := List.mem_map.mp hu
  by_cases hxv : (x.id == v) = true
  · rw [if_pos hxv] at hfx
    subst hfx
    rfl
  · rw [if_neg hxv] at hfx
    subst hfx
    exact h x hx hid

/-- C5: saving an IntroReflection for a user sets that user's
intro_completed flag true; the rows of every other user are untouched
(their sublist of the users table is unchanged); and after a subsequent
intro-reflection save — for the same or any other user — the flag is still
true, i.e. it is never reset. -/
theorem intro_save_flag_frame (db : DB) (uid uid2 : Nat) (r r2 : IntroReflection) :
    ((save_intro_reflection db uid r).1.users.filter (fun u => !(u.id == uid)) =
      db.users.filter (fun u => !(u.id == uid))) ∧
    (∀ u ∈ (save_intro_reflection db uid r).1.users,
      u.id = uid → u.intro_completed = true) ∧
    (∀ u ∈ (save_intro_reflection (save_intro_reflection db uid r).1 uid2 r2).1.users,
      u.id = uid → u.intro_completed = true) := by
  have husers : ∀ (d : DB) (v : Nat) (rr : IntroReflection),
      (save_intro_reflection d v rr).1.users = d.users.map (fun usr =>
        if usr.id == v then { usr with intro_completed := true } else usr) :=
    fun _ _ _ => rfl
  refine ⟨?_, ?_, ?_⟩
  · rw [husers]
    apply filter_map_fix
    · intro x hx
      have hxe : (x.id == uid) = false := by simpa using hx
      simp [hxe]
    · intro x hx
      have hxe : (x.id == uid) = true := by simpa using hx
      simp [hxe]
  · rw [husers]
    exact intro_flag_after_map db.users uid
  · rw [husers, husers]
    exact intro_flag_mono _ uid uid2 (intro_flag_after_map db.users uid)

/-- Two-user store used to exercise the intro-flag frame property. -/
def demo_users_db : DB :=
  ⟨[⟨1, "alice", "h", false, 0⟩, ⟨2, "bob", "h", false, 0⟩], [], [], [], [], []⟩

/-- Intro-reflection payload used in concrete scenarios. -/
def demo_intro : IntroReflection := ⟨"a", "b", "c", "d", "e", "f", "g"⟩

/-- C5 witness: with users 1 and 2 present, saving user 1's intro leaves
user 2's row untouched while user 1's flag flips to true. -/
theorem intro_save_flag_frame_witness :
    ((save_intro_reflection demo_users_db 1 demo_intro).1.users.filter
        (fun u => !(u.id == 1)) =
      demo_users_db.users.filter (fun u => !(u.id == 1))) ∧
    (save_intro_reflection demo_users_db 1 demo_intro).1.users =
      [⟨1, "alice", "h", true, 0⟩, ⟨2, "bob", "h", false, 0⟩] :=
  ⟨(intro_save_flag_frame demo_users_db 1 2 demo_intro demo_intro).1, by rfl⟩

/-- Every error get_current_user ever raises is the 401 with the Basic
challenge header. -/
theorem get_current_user_error (hash_password : String → String) (db : DB)
    (username password : String) (e : HTTPError)
    (h : get_current_user hash_password db username password = Except.error e) :
    e = ⟨401, "Invalid credentials", some "Basic"⟩ := by
  simp only [get_current_user] at h
  split at h
  · simp at h
  · have h2 : (Except.error ⟨401, "Invalid credentials", some "Basic"⟩ :
        Except HTTPError UserIdentity) = Except.error e := h
    injection h2 with h3
    exact h3.symm

/-- C6: a protected operation first resolves the credentials through
get_current_user; when that fails the response is the 401 error carrying
the WWW-Authenticate Basic challenge and the downstream handler is never
consulted (the response is the same for every handler); when it succeeds
the downstream handler runs with the resolved identity. -/
theorem auth_gate_spec {α : Type} (hash_password : String → String) (db : DB)
    (username password : String) (handler : UserIdentity → Except HTTPError α) :
    (∀ e, get_current_user hash_password db username password = Except.error e →
      e.status = 401 ∧ e.www_authenticate = some "Basic" ∧
      run_protected hash_password db username password handler = Except.error e ∧
      ∀ handler2 : UserIdentity → Except HTTPError α,
        run_protected hash_password db username password handler2 = Except.error e) ∧
    (∀ u, get_current_user hash_password db username password = Except.ok u →
      run_protected hash_password db username password handler = handler u) := by
  constructor
  · intro e he
    have he401 := get_current_user_error hash_password db username password e he
    subst he401
    refine ⟨rfl, rfl, ?_, ?_⟩
    · unfold run_protected
      rw [he]
    · intro handler2
      unfold run_protected
      rw [he]
  · intro u hu
    unfold run_protected
    rw [hu]

/-- One-user store whose single account is alice with stored hash "pw"
(concrete digest modelled by the identity function in the witnesses). -/
def auth_db : DB := ⟨[⟨1, "alice", "pw", false, 0⟩], [], [], [], [], []⟩

/-- C6 witness: with the identity digest, wrong credentials make the
protected operation answer the 401 challenge, and right credentials make
it run the handler on the resolved identity. -/
theorem auth_gate_spec_witness :
    run_protected (fun s => s) auth_db "alice" "bad" (fun u => Except.ok u.id) =
      Except.error ⟨401, "Invalid credentials", some "Basic"⟩ ∧
    run_protected (fun s => s) auth_db "alice" "pw" (fun u => Except.ok u.id) =
      Except.ok 1 :=
  ⟨((auth_gate_spec (fun s => s) auth_db "alice" "bad" (fun u => Except.ok u.id)).1
      ⟨401, "Invalid credentials", some "Basic"⟩ (by rfl)).2.2.1,
   (auth_gate_spec (fun s => s) auth_db "alice" "pw" (fun u => Except.ok u.id)).2
      ⟨1, "alice", false⟩ (by rfl)⟩

/-- C7: for a stored user (usernames being unique, as the UNIQUE constraint
the registration handler relies on guarantees), supplying that username
resolves to the identity (id, username, intro_completed) exactly when the
digest of the supplied password equals the stored hash, and to the 401
error otherwise; the outcome is by construction a pure function of the
store, the digest and the credentials. -/
theorem verify_matches_hash (hash_password : String → String) (db : DB)
    (u : UserRow) (password : String)
    (hmem : u ∈ db.users)
    (huniq : ∀ v ∈ db.users, v.username = u.username → v = u) :
    (get_current_user hash_password db u.username password =
        Except.ok ⟨u.id, u.username, u.intro_completed⟩ ↔
      hash_password password = u.password_hash) ∧
    (hash_password password ≠ u.password_hash →
      get_current_user hash_password db u.username password =
        Except.error ⟨401, "Invalid credentials", some "Basic"⟩) := by
  constructor
  · constructor
    · intro h
      simp only [get_current_user] at h
      split at h
      · rename_i w hw
        have hpw := List.find?_some hw
        have hw2 : w.username = u.username ∧ w.password_hash = hash_password password := by
          simpa using hpw
        have hwu := huniq w (List.mem_of_find?_eq_some hw) hw2.1
        subst hwu
        exact hw2.2.symm
      · simp at h
    · intro h
      simp only [get_current_user]
      cases hfind : db.users.find?
          (fun v => v.username == u.username && v.password_hash == hash_password password) with
      | none =>
        rw [List.find?_eq_none] at hfind
        have hpu : (u.username == u.username && u.password_hash == hash_password password)
            = true := by
          simp [h.symm]
        exact absurd hpu (hfind u hmem)
      | some w =>
        have hpw := List.find?_some hfind
        have hw2 : w.username = u.username ∧ w.password_hash = hash_password password := by
          simpa using hpw
        have hwu := huniq w (List.mem_of_find?_eq_some hfind) hw2.1
        subst hwu
        rfl
  · intro h
    simp only [get_current_user]
    have hnone : db.users.find?
        (fun v => v.username == u.username && v.password_hash == hash_password password)
        = none := by
      rw [List.find?_eq_none]
      intro v hv hpv
      have hv2 : v.username = u.username ∧ v.password_hash = hash_password password := by
        simpa using hpv
      have hvu := huniq v hv hv2.1
      subst hvu
      exact absurd hv2.2.symm h
    rw [hnone]

/-- C7 witness: with the identity digest, alice's right password resolves
to her identity and a wrong password yields the 401 outcome. -/
theorem verify_matches_hash_witness :
    get_current_user (fun s => s) auth_db "alice" "pw" =
      Except.ok ⟨1, "alice", false⟩ ∧
    get_current_user (fun s => s) auth_db "alice" "bad" =
      Except.error ⟨401, "Invalid credentials", some "Basic"⟩ :=
  ⟨(verify_matches_hash (fun s => s) auth_db ⟨1, "alice", "pw", false, 0⟩ "pw"
      (by simp [auth_db]) (by simp [auth_db])).1.mpr rfl,
   (verify_matches_hash (fun s => s) auth_db ⟨1, "alice", "pw", false, 0⟩ "bad"
      (by simp [auth_db]) (by simp [auth_db])).2 (by simp)⟩

/-- C8: listing a user's daily entries yields only projections of that
user's stored rows, exactly min(limit, number of that user's rows) of
them, in descending entry_date order; the `limit` query parameter defaults
to default_limit = 30. -/
theorem list_entries_spec (db : DB) (uid : Nat) (limit : Nat) :
    (∀ s ∈ list_entries db uid limit, ∃ r, r ∈ db.daily_entries ∧ r.user_id = uid ∧
      s = ⟨r.entry_date, r.selected_emotions, r.created_at⟩) ∧
    (list_entries db uid limit).length =
      min limit (db.daily_entries.filter (fun r => r.user_id == uid)).length ∧
    List.Pairwise (fun a b : DailySummary => b.entry_date ≤ a.entry_date)
      (list_entries db uid limit) ∧
    default_limit = 30 := by
  refine ⟨?_, ?_, ?_, rfl⟩
  · intro s hs
    unfold list_entries at hs
    obtain ⟨r, hr, hrs⟩ := List.mem_map.mp hs
    have hr2 : r ∈ (db.daily_entries.filter
        (fun q => q.user_id == uid)).insertionSort entry_date_desc :=
      List.mem_of_mem_take hr
    rw [List.mem_insertionSort] at hr2
    have hr3 := List.mem_filter.mp hr2
    exact ⟨r, hr3.1, by simpa using hr3.2, hrs.symm⟩
  · unfold list_entries
    rw [List.length_map, List.length_take]
    congr 1
    exact (List.perm_insertionSort entry_date_desc _).length_eq
  · unfold list_entries
    exact List.Pairwise.map _ (fun a b h => h)
      (List.Pairwise.sublist (List.take_sublist _ _)
        (List.sorted_insertionSort entry_date_desc _))

/-- Store holding five daily entries for user 1 with distinct dates
3, 1, 5, 2, 4, inserted in that order through the save handler. -/
def five_db : DB :=
  (save_daily_entry (save_daily_entry (save_daily_entry (save_daily_entry
    (save_daily_entry empty_db 1 (de_demo 3) 0).1 1 (de_demo 1) 0).1 1
    (de_demo 5) 0).1 1 (de_demo 2) 0).1 1 (de_demo 4) 0).1

/-- C8 witness: after inserting five distinct dates for user 1, listing
with limit 2 returns exactly the two most recent dates, descending. -/
theorem list_entries_spec_witness :
    (list_entries five_db 1 2).length =
      min 2 (five_db.daily_entries.filter (fun r => r.user_id == 1)).length ∧
    list_entries five_db 1 2 = [⟨5, [], 0⟩, ⟨4, [], 0⟩] :=
  ⟨(list_entries_spec five_db 1 2).2.1, by rfl⟩

/-- C9: updating the emotion wheel for a user with no settings row still
answers the success message while leaving the whole store unchanged, even
though the settings get for the same user signals NotFound (404). -/
theorem update_settings_absent_noop (db : DB) (uid : Nat) (doc : EmotionWheel)
    (now : Nat)
    (habsent : ∀ s ∈ db.user_settings, s.user_id ≠ uid) :
    update_emotion_wheel db uid doc now =
      (db, "Emotion wheel updated successfully") ∧
    get_emotion_wheel db uid = Except.error ⟨404, "Settings not found", none⟩ := by
  constructor
  · unfold update_emotion_wheel
    have hmap : db.user_settings.map (fun s =>
        if s.user_id == uid then { s with emotion_wheel := doc, updated_at := now }
        else s) = db.user_settings := by
      have hfix : ∀ s ∈ db.user_settings,
          (if s.user_id == uid then { s with emotion_wheel := doc, updated_at := now }
          else s) = s := by
        intro s hs
        have hse : (s.user_id == uid) = false := by simpa using habsent s hs
        simp [hse]
      rw [List.map_congr_left hfix]
      exact List.map_id _
    rw [hmap]
  · unfold get_emotion_wheel
    have hnone : db.user_settings.find? (fun s => s.user_id == uid) = none := by
      rw [List.find?_eq_none]
      intro s hs
      simpa using habsent s hs
    rw [hnone]

/-- C9 witness: the empty store has no settings row for user 1; the update
reports success and changes nothing while the get answers 404. -/
theorem update_settings_absent_noop_witness :
    update_emotion_wheel empty_db 1 "w" 0 =
      (empty_db, "Emotion wheel updated successfully") ∧
    get_emotion_wheel empty_db 1 = Except.error ⟨404, "Settings not found", none⟩ :=
  update_settings_absent_noop empty_db 1 "w" 0 (by simp [empty_db])
